import Mathlib

/-!
Verification of the Java Cache IDX file parser
(`plaso/parsers/java_idx.py`, class `JavaIDXParser`).

The byte source is modelled as a `List Nat` (each entry one byte).  A
sequential read consumes a prefix of the remaining stream; the absolute
`file_object.seek(128)` of the source is modelled by restarting from
`b.drop 128` of the original input.  Strings recovered from the file are
kept as byte lists.

Error taxonomy (the spec's names, §7 of the design document):
* `truncatedInput`   — a `construct` read failed because fewer bytes were
  available than the field requires (including failure of the initial
  magic read, which the source wraps into `UnableToParseFile`);
* `formatError`      — the `magic.busy > 1 or magic.incomplete > 1`
  rejection (source line 153);
* `unsupportedVersion` — the spec's `UnsupportedVersionError`; the source
  has NO code path raising it (the version dispatch has no else branch),
  so no definition below ever produces it;
* `fieldMissing`     — the "URL not found in file" rejection (line 195);
* `dateParseError`   — `timelib.Timestamp.FromTimeString` failing on a
  malformed date string (fatal, propagates out of `Parse`);
* `nameError`        — Python's `UnboundLocalError`: the source reads the
  locals `http_header_count` (line 188) and `download_date` (line 207)
  which are never assigned when the version is unknown, resp. when no
  header field is named `date`.
-/

inductive JErr where
  | truncatedInput
  | formatError
  | unsupportedVersion
  | fieldMissing
  | dateParseError
  | nameError
deriving DecidableEq, Repr

/-- The event container the source returns on success: `idx_version`,
`url`, `ip_address` (class `JavaIDXEventContainer`) plus the two appended
timestamp events (`last_modified_date`, `download_date`), source lines
199-211. -/
structure JavaIDXRecord where
  idx_version : Nat
  url : List Nat
  ip_address : List Nat
  last_modified_date : Nat
  download_date : Nat
deriving DecidableEq, Repr

deriving instance DecidableEq for Except

/-- Big-endian value of a byte list (how `construct.UBIntN` decodes). -/
def beVal (l : List Nat) : Nat := l.foldl (fun a x => a * 256 + x) 0

/-- Read `n` bytes from the remaining stream; `construct` raises a field
error (truncation) when fewer than `n` bytes are available. -/
def readN (s : List Nat) (n : Nat) : Except JErr (List Nat × List Nat) :=
  if n ≤ s.length then .ok (s.take n, s.drop n) else .error .truncatedInput

/-- One big-endian unsigned integer of width `w` bytes (`construct.UBInt8/
16/32/64`). -/
def readUBInt (s : List Nat) (w : Nat) : Except JErr (Nat × List Nat) :=
  match readN s w with
  | .error e => .error e
  | .ok (l, s) => .ok (beVal l, s)

/-- `construct.PascalString` with a `w`-byte big-endian length field: the
length is read first, then that many content bytes.  The width is 2 for
602 inline strings and header fields, 4 for the section-2 strings. -/
def readPascal (s : List Nat) (w : Nat) : Except JErr (List Nat × List Nat) :=
  match readUBInt s w with
  | .error e => .error e
  | .ok (len, s) => readN s len

/-- `IDX_SHORT_STRUCT`: `busy: UBInt8`, `incomplete: UBInt8`,
`idx_version: UBInt32`. -/
structure Magic where
  busy : Nat
  incomplete : Nat
  idx_version : Nat
deriving DecidableEq, Repr

/-- Parse `IDX_SHORT_STRUCT` (6 fixed bytes) from the start of the input. -/
def parseIDXShort (b : List Nat) : Except JErr (Magic × List Nat) :=
  if 6 ≤ b.length then
    .ok (⟨b.getD 0 0, b.getD 1 0, beVal ((b.drop 2).take 4)⟩, b.drop 6)
  else .error .truncatedInput

/-- `IDX_602_STRUCT` result. The source field `namespace` is a Lean
keyword and is rendered `name_space` here. -/
structure S602 where
  null_space : Nat
  shortcut : Nat
  content_length : Nat
  last_modified_date : Nat
  expiration_date : Nat
  version_string : List Nat
  url : List Nat
  name_space : List Nat
  FieldCount : Nat
deriving DecidableEq, Repr

/-- Parse `IDX_602_STRUCT`: `null_space: UBInt16`, `shortcut: UBInt8`,
`content_length: UBInt32`, `last_modified_date: UBInt64`,
`expiration_date: UBInt64`, then three `PascalString`s with `UBInt16`
length fields (`version_string`, `url`, `namespace`), then
`FieldCount: UBInt32`. -/
def parseIDX602 (s : List Nat) : Except JErr (S602 × List Nat) :=
  match readUBInt s 2 with
  | .error e => .error e
  | .ok (null_space, s) =>
  match readUBInt s 1 with
  | .error e => .error e
  | .ok (shortcut, s) =>
  match readUBInt s 4 with
  | .error e => .error e
  | .ok (content_length, s) =>
  match readUBInt s 8 with
  | .error e => .error e
  | .ok (last_modified_date, s) =>
  match readUBInt s 8 with
  | .error e => .error e
  | .ok (expiration_date, s) =>
  match readPascal s 2 with
  | .error e => .error e
  | .ok (version_string, s) =>
  match readPascal s 2 with
  | .error e => .error e
  | .ok (url, s) =>
  match readPascal s 2 with
  | .error e => .error e
  | .ok (name_space, s) =>
  match readUBInt s 4 with
  | .error e => .error e
  | .ok (fieldCount, s) =>
    .ok (⟨null_space, shortcut, content_length, last_modified_date,
          expiration_date, version_string, url, name_space, fieldCount⟩, s)

/-- `IDX_603_SECTION1_STRUCT` result (also used for version 604). -/
structure S603 where
  null_space : Nat
  shortcut : Nat
  content_length : Nat
  last_modified_date : Nat
  expiration_date : Nat
  validation_date : Nat
  signed : Nat
  sec2len : Nat
  sec3len : Nat
  sec4len : Nat
deriving DecidableEq, Repr

/-- Parse `IDX_603_SECTION1_STRUCT`, a purely fixed-width sequence:
`null_space: UBInt16` (bytes 0-1), `shortcut: UBInt8` (2),
`content_length: UBInt32` (3-6), `last_modified_date: UBInt64` (7-14),
`expiration_date: UBInt64` (15-22), `validation_date: UBInt64` (23-30),
`signed: UBInt8` (31), `sec2len/sec3len/sec4len: UBInt32` (32-43);
44 bytes in total.  Offsets are relative to the stream after the magic
header, i.e. file offset = 6 + offset. -/
def parseIDX603S1 (s : List Nat) : Except JErr (S603 × List Nat) :=
  if 44 ≤ s.length then
    .ok (⟨beVal (s.take 2), beVal ((s.drop 2).take 1), beVal ((s.drop 3).take 4),
          beVal ((s.drop 7).take 8), beVal ((s.drop 15).take 8),
          beVal ((s.drop 23).take 8), beVal ((s.drop 31).take 1),
          beVal ((s.drop 32).take 4), beVal ((s.drop 36).take 4),
          beVal ((s.drop 40).take 4)⟩, s.drop 44)
  else .error .truncatedInput

/-- `IDX_605_SECTION1_STRUCT` result: like `S603` without `null_space`. -/
structure S605 where
  shortcut : Nat
  content_length : Nat
  last_modified_date : Nat
  expiration_date : Nat
  validation_date : Nat
  signed : Nat
  sec2len : Nat
  sec3len : Nat
  sec4len : Nat
deriving DecidableEq, Repr

/-- Parse `IDX_605_SECTION1_STRUCT`: `shortcut: UBInt8` (byte 0),
`content_length: UBInt32` (1-4), `last_modified_date: UBInt64` (5-12),
`expiration_date: UBInt64` (13-20), `validation_date: UBInt64` (21-28),
`signed: UBInt8` (29), `sec2len/sec3len/sec4len: UBInt32` (30-41);
42 bytes in total. -/
def parseIDX605S1 (s : List Nat) : Except JErr (S605 × List Nat) :=
  if 42 ≤ s.length then
    .ok (⟨beVal (s.take 1), beVal ((s.drop 1).take 4), beVal ((s.drop 5).take 8),
          beVal ((s.drop 13).take 8), beVal ((s.drop 21).take 8),
          beVal ((s.drop 29).take 1), beVal ((s.drop 30).take 4),
          beVal ((s.drop 34).take 4), beVal ((s.drop 38).take 4)⟩, s.drop 42)
  else .error .truncatedInput

/-- `IDX_SECTION2_STRUCT` result. -/
structure Section2 where
  url : List Nat
  ip_address : List Nat
  FieldCount : Nat
deriving DecidableEq, Repr

/-- Parse `IDX_SECTION2_STRUCT`: `url` and `ip_address` as
`PascalString`s with `UBInt32` (4-byte) length fields, then
`FieldCount: UBInt32`, in that order. -/
def parseSection2 (s : List Nat) : Except JErr (Section2 × List Nat) :=
  match readPascal s 4 with
  | .error e => .error e
  | .ok (url, s) =>
  match readPascal s 4 with
  | .error e => .error e
  | .ok (ip_address, s) =>
  match readUBInt s 4 with
  | .error e => .error e
  | .ok (fieldCount, s) => .ok (⟨url, ip_address, fieldCount⟩, s)

/-- The bytes of the literal `'date'` compared against each header field
name (source line 191; Python `==` on byte strings, case-sensitive). -/
def dateBytes : List Nat := [100, 97, 116, 101]

/-- The bytes of the literal `'Unknown'` used as the 602 address. -/
def unknownIP : List Nat := [85, 110, 107, 110, 111, 119, 110]

/-- Split a byte list at each space byte (32). -/
def splitOn32 : List Nat → List (List Nat)
  | [] => [[]]
  | 32 :: xs => [] :: splitOn32 xs
  | x :: xs =>
    match splitOn32 xs with
    | [] => [[x]]
    | h :: t => (x :: h) :: t

def isDigit (c : Nat) : Bool := decide (48 ≤ c) && decide (c ≤ 57)

def isAlpha (c : Nat) : Bool :=
  (decide (65 ≤ c) && decide (c ≤ 90)) || (decide (97 ≤ c) && decide (c ≤ 122))

def digitsVal (l : List Nat) : Nat := l.foldl (fun a c => a * 10 + (c - 48)) 0

/-- The three-letter weekday names accepted for the pattern's weekday
position, as byte lists (Mon Tue Wed Thu Fri Sat Sun). -/
def weekdayNames : List (List Nat) :=
  [[77, 111, 110], [84, 117, 101], [87, 101, 100], [84, 104, 117],
   [70, 114, 105], [83, 97, 116], [83, 117, 110]]

/-- The three-letter month names (Jan .. Dec), as byte lists. -/
def monthNames : List (List Nat) :=
  [[74, 97, 110], [70, 101, 98], [77, 97, 114], [65, 112, 114],
   [77, 97, 121], [74, 117, 110], [74, 117, 108], [65, 117, 103],
   [83, 101, 112], [79, 99, 116], [78, 111, 118], [68, 101, 99]]

/-- 1-based month number of a month-name token. -/
def monthNum (t : List Nat) : Option Nat :=
  (monthNames.findIdx? (fun m => m = t)).map (fun i => i + 1)

def isLeap (y : Nat) : Bool :=
  (decide (y % 4 = 0) && !decide (y % 100 = 0)) || decide (y % 400 = 0)

/-- Cumulative day count before month `m` in a non-leap year. -/
def cumDays (m : Nat) : Nat :=
  [0, 31, 59, 90, 120, 151, 181, 212, 243, 273, 304, 334].getD (m - 1) 0

/-- Days from 1970-01-01 to year `y`, month `m`, day `d` (proleptic
Gregorian, `y ≥ 1970`). -/
def daysFromEpoch (y m d : Nat) : Nat :=
  365 * (y - 1970) + ((y - 1) / 4 - (y - 1) / 100 + (y - 1) / 400 - 477) +
    cumDays m + (if isLeap y && decide (3 ≤ m) then 1 else 0) + (d - 1)

/-- An `HH:MM:SS` token: two digits, colon (58), two digits, colon, two
digits, with the usual bounds. -/
def timeToken (t : List Nat) : Option (Nat × Nat × Nat) :=
  match t with
  | [h1, h2, 58, m1, m2, 58, s1, s2] =>
    if [h1, h2, m1, m2, s1, s2].all isDigit then
      let h := digitsVal [h1, h2]
      let mi := digitsVal [m1, m2]
      let se := digitsVal [s1, s2]
      if decide (h ≤ 23) && decide (mi ≤ 59) && decide (se ≤ 61) then
        some (h, mi, se)
      else none
    else none
  | _ => none

/-- Modelled from the spec: `timelib.Timestamp.FromTimeString` (module
`plaso.lib.timelib`, not part of this repository's sources) applied with
the fixed pattern `HTTP_DATE_FMT`, i.e.
`'<weekday>, <day> <month> <year> <hour>:<minute>:<second> <timezone>'`.
Per the spec it parses an RFC-1123-style HTTP date into an absolute
timestamp (microseconds since the epoch here), and a string that does not
match the pattern is a fatal date-parse failure (`none`). -/
def FromTimeString (value : List Nat) : Option Nat :=
  match splitOn32 value with
  | [wd, dayT, monT, yearT, timeT, tzT] =>
    match wd with
    | [c1, c2, c3, 44] =>
      if weekdayNames.contains [c1, c2, c3] then
        if dayT.all isDigit && decide (1 ≤ dayT.length) && decide (dayT.length ≤ 2) then
          match monthNum monT with
          | some m =>
            if yearT.all isDigit && decide (1 ≤ yearT.length) && decide (yearT.length ≤ 4) then
              let d := digitsVal dayT
              let y := digitsVal yearT
              if decide (1 ≤ d) && decide (d ≤ 31) && decide (1970 ≤ y) then
                match timeToken timeT with
                | some (h, mi, se) =>
                  if !tzT.isEmpty && tzT.all isAlpha then
                    some ((((daysFromEpoch y m d * 24 + h) * 60 + mi) * 60 + se) * 1000000)
                  else none
                | none => none
              else none
            else none
          | none => none
        else none
      else none
    | _ => none
  | _ => none

/-- The header-field loop of `Parse` (source lines 188-193): read
`http_header_count` pairs of `JAVA_READUTF_STRING`s (PascalStrings with
2-byte length fields); whenever the field name equals `'date'` the value
is parsed with `FromTimeString` and overwrites `download_date` (there is
no `break`, so a later match overwrites an earlier one). -/
def headerLoop : Nat → List Nat → Option Nat → Except JErr (Option Nat)
  | 0, _, download_date => .ok download_date
  | n + 1, s, download_date =>
    match readPascal s 2 with
    | .error e => .error e
    | .ok (field, s) =>
    match readPascal s 2 with
    | .error e => .error e
    | .ok (value, s) =>
      if field = dateBytes then
        match FromTimeString value with
        | none => .error .dateParseError
        | some t => headerLoop n s (some t)
      else headerLoop n s download_date

/-- The version dispatch of `Parse` (source lines 161-182).  `b` is the
whole input (needed for the absolute `seek(128)`), `s` the stream just
after the magic header.  For 603/604/605 the stream position left by the
section-1 parse is discarded and reading resumes at `b.drop 128`; the
returned tuple is `(last_modified_date, url, ip_address,
http_header_count, remaining stream)`.  There is no else branch in the
source: any other version leaves those locals unassigned and Python
raises `UnboundLocalError` at line 188, modelled as `.nameError`. -/
def dispatch (b : List Nat) (idx_version : Nat) (s : List Nat) :
    Except JErr (Nat × List Nat × List Nat × Nat × List Nat) :=
  if idx_version = 602 then
    match parseIDX602 s with
    | .error e => .error e
    | .ok (section1, s) =>
      .ok (section1.last_modified_date, section1.url, unknownIP,
           section1.FieldCount, s)
  else if idx_version = 603 ∨ idx_version = 604 then
    match parseIDX603S1 s with
    | .error e => .error e
    | .ok (section1, _) =>
      match parseSection2 (b.drop 128) with
      | .error e => .error e
      | .ok (section2, s) =>
        .ok (section1.last_modified_date, section2.url, section2.ip_address,
             section2.FieldCount, s)
  else if idx_version = 605 then
    match parseIDX605S1 s with
    | .error e => .error e
    | .ok (section1, _) =>
      match parseSection2 (b.drop 128) with
      | .error e => .error e
      | .ok (section2, s) =>
        .ok (section1.last_modified_date * 1000, section2.url,
             section2.ip_address, section2.FieldCount, s)
  else .error .nameError

/-- `JavaIDXParser.Parse` (source lines 133-211).  Magic header, flag
check (`busy > 1 or incomplete > 1` raises, line 153), version dispatch,
header-field loop, the `not url or not ip_address` check (line 195,
"URL not found in file"), then the container is assembled; referencing
the never-assigned `download_date` when no `date` field occurred is
Python's `UnboundLocalError` (line 207), modelled as `.nameError`. -/
def Parse (b : List Nat) : Except JErr JavaIDXRecord :=
  match parseIDXShort b with
  | .error e => .error e
  | .ok (magic, s) =>
    if magic.busy > 1 ∨ magic.incomplete > 1 then .error .formatError
    else
      match dispatch b magic.idx_version s with
      | .error e => .error e
      | .ok (last_modified_date, url, ip_address, http_header_count, s) =>
        match headerLoop http_header_count s none with
        | .error e => .error e
        | .ok download_date =>
          if url = [] ∨ ip_address = [] then .error .fieldMissing
          else
            match download_date with
            | none => .error .nameError
            | some d =>
              .ok ⟨magic.idx_version, url, ip_address, last_modified_date, d⟩

/-! ### Concrete fixtures

`fixture605` is a valid version-605 record, modelled on the repository's
test fixture `test_data/java.idx` (the fixture file itself is not among
the sources; its decoded values are taken from
`java_idx_test.py`: `idx_version = 605`, `ip_address = '10.7.119.10'`,
url ending in `ab`, `last_modified_date = 996123600000`, hence a raw
`last_modified_date` field of 996123600).  Layout: 6 magic bytes,
42 section-1 bytes, zero padding to offset 128, section 2 (url
`http://x/ab`, ip `10.7.119.10`, FieldCount 1) and one header pair
`date: Sun, 05 Aug 2001 05:00:00 GMT`.  Total length 199, with no slack
bytes after the last header pair. -/

def fixture605 : List Nat :=
  [0, 0, 0, 0, 2, 93] ++
  ([1] ++ [0, 0, 0, 42] ++ [0, 0, 0, 0, 59, 95, 163, 208] ++
   [0, 0, 0, 0, 0, 0, 0, 0] ++ [0, 0, 0, 0, 0, 0, 0, 0] ++ [0] ++
   [0, 0, 0, 55] ++ [0, 0, 0, 0] ++ [0, 0, 0, 0]) ++
  List.replicate 80 0 ++
  ([0, 0, 0, 11] ++ [104, 116, 116, 112, 58, 47, 47, 120, 47, 97, 98] ++
   [0, 0, 0, 11] ++ [49, 48, 46, 55, 46, 49, 49, 57, 46, 49, 48] ++
   [0, 0, 0, 1]) ++
  ([0, 4] ++ [100, 97, 116, 101] ++
   [0, 29] ++ [83, 117, 110, 44, 32, 48, 53, 32, 65, 117, 103, 32, 50, 48,
               48, 49, 32, 48, 53, 58, 48, 48, 58, 48, 48, 32, 71, 77, 84])

/-- A valid version-602 record, modelled on the repository's test fixture
`test_data/java_602.idx` (decoded values from `java_idx_test.py`:
`idx_version = 602`, `ip_address = 'Unknown'`, url ending in `.jar`,
`last_modified_date = 1273023259720`, unscaled).  Layout: 6 magic bytes,
then `IDX_602_STRUCT` inline (null_space, shortcut, content_length,
last_modified_date, expiration_date, version_string `1.0`, url `a.jar`,
namespace `ns`, FieldCount 1) and one header pair
`date: Mon, 10 May 2010 05:00:00 GMT`.  Total length 86, no slack. -/
def fixture602 : List Nat :=
  [0, 0, 0, 0, 2, 90] ++
  ([0, 0] ++ [0] ++ [0, 0, 0, 9] ++ [0, 0, 1, 40, 102, 25, 100, 72] ++
   [0, 0, 0, 0, 0, 0, 0, 0] ++
   [0, 3] ++ [49, 46, 48] ++
   [0, 5] ++ [97, 46, 106, 97, 114] ++
   [0, 2] ++ [110, 115] ++
   [0, 0, 0, 1]) ++
  ([0, 4] ++ [100, 97, 116, 101] ++
   [0, 29] ++ [77, 111, 110, 44, 32, 49, 48, 32, 77, 97, 121, 32, 50, 48,
               49, 48, 32, 48, 53, 58, 48, 48, 58, 48, 48, 32, 71, 77, 84])

/-! ### Derived definitions used to state the claims -/

/-- The tail of `Parse` shared by versions 603, 604 and 605, starting from
the `seek(128)`: section 2 is parsed from the byte suffix at absolute
offset 128, then the header loop runs, then the url/ip check and the
container assembly.  `Parse` on such versions is proved equal to this
function applied to `b.drop 128`. -/
def parseRest (idx_version last_modified_date : Nat) (s128 : List Nat) :
    Except JErr JavaIDXRecord :=
  match parseSection2 s128 with
  | .error e => .error e
  | .ok (section2, s) =>
    match headerLoop section2.FieldCount s none with
    | .error e => .error e
    | .ok download_date =>
      if section2.url = [] ∨ section2.ip_address = [] then .error .fieldMissing
      else
        match download_date with
        | none => .error .nameError
        | some d =>
          .ok ⟨idx_version, section2.url, section2.ip_address,
               last_modified_date, d⟩

/-- The tail of `Parse` for version 602 after its inline section-1 parse:
only the `last_modified_date`, `url` and `FieldCount` values of the
section-1 result and the remaining stream are consumed (the address is
the literal `Unknown`). -/
def parse602Rest (idx_version last_modified_date : Nat) (url : List Nat)
    (fieldCount : Nat) (s : List Nat) : Except JErr JavaIDXRecord :=
  match headerLoop fieldCount s none with
  | .error e => .error e
  | .ok download_date =>
    if url = [] ∨ unknownIP = [] then .error .fieldMissing
    else
      match download_date with
      | none => .error .nameError
      | some d => .ok ⟨idx_version, url, unknownIP, last_modified_date, d⟩

/-- Byte length of the fixed section-1 layout per version (42 for 605,
44 for 603/604). -/
def s1len (idx_version : Nat) : Nat := if idx_version = 605 then 42 else 44

/-- The emitted last-modified value as a function of the raw bytes: the
8-byte big-endian field at absolute offset 11 scaled by 1000 for version
605 (source line 177), the one at absolute offset 13 unscaled for
603/604. -/
def lastmodVal (idx_version : Nat) (b : List Nat) : Nat :=
  if idx_version = 605 then beVal ((b.drop 11).take 8) * 1000
  else beVal ((b.drop 13).take 8)

/-- 2-byte big-endian encoding of `n` (for `n < 65536`). -/
def enc16 (n : Nat) : List Nat := [n / 256 % 256, n % 256]

/-- Encoding of a `PascalString` with 2-byte length field. -/
def encPascal16 (s : List Nat) : List Nat := enc16 s.length ++ s

/-- Wire encoding of one header name/value pair. -/
def encodePair (p : List Nat × List Nat) : List Nat :=
  encPascal16 p.1 ++ encPascal16 p.2

/-- Wire encoding of a list of header pairs. -/
def encodePairs : List (List Nat × List Nat) → List Nat
  | [] => []
  | p :: ps => encodePair p ++ encodePairs ps

/-- The accumulator semantics of the source's header loop on decoded
pairs: each pair whose name is `date` overwrites the accumulator with the
parse of its value, so the final value comes from the LAST such pair. -/
def lastDateFold (ps : List (List Nat × List Nat)) (acc : Option Nat) :
    Option Nat :=
  ps.foldl (fun a p => if p.1 = dateBytes then FromTimeString p.2 else a) acc

/-- The field/width table of `IDX_603_SECTION1_STRUCT` in declaration
order (widths in bytes: `UBInt16` = 2, `UBInt8` = 1, `UBInt32` = 4,
`UBInt64` = 8). -/
def IDX_603_SECTION1_fields : List (String × Nat) :=
  [("null_space", 2), ("shortcut", 1), ("content_length", 4),
   ("last_modified_date", 8), ("expiration_date", 8), ("validation_date", 8),
   ("signed", 1), ("sec2len", 4), ("sec3len", 4), ("sec4len", 4)]

/-- The field/width table of `IDX_605_SECTION1_STRUCT` in declaration
order. -/
def IDX_605_SECTION1_fields : List (String × Nat) :=
  [("shortcut", 1), ("content_length", 4),
   ("last_modified_date", 8), ("expiration_date", 8), ("validation_date", 8),
   ("signed", 1), ("sec2len", 4), ("sec3len", 4), ("sec4len", 4)]

/-- Byte offset of the named field inside a fixed layout table. -/
def offsetOf : List (String × Nat) → String → Option Nat
  | [], _ => none
  | (n, w) :: rest, name =>
    if n = name then some 0 else (offsetOf rest name).map (fun o => o + w)

/-- The record decoded from `fixture605` (values asserted by the
repository's test for the 605 fixture; the download timestamp is this
model's parse of `Sun, 05 Aug 2001 05:00:00 GMT` in microseconds). -/
def fixtureRecord605 : JavaIDXRecord :=
  ⟨605, [104, 116, 116, 112, 58, 47, 47, 120, 47, 97, 98],
   [49, 48, 46, 55, 46, 49, 49, 57, 46, 49, 48], 996123600000,
   996987600000000⟩

/-- The record decoded from `fixture602` (`ip_address` is the literal
`Unknown`). -/
def fixtureRecord602 : JavaIDXRecord :=
  ⟨602, [97, 46, 106, 97, 114], unknownIP, 1273023259720, 1273467600000000⟩

/-- A 6-byte input whose header parses, whose flags are 0, and whose
version is 600 — outside `{602, 603, 604, 605}`. -/
def c1Input : List Nat := [0, 0, 0, 0, 2, 88]

/-- A structurally valid version-605 record with header-field count 0 (no
`date` field): magic, full section 1, padding to 128, url `hi`, ip `x`,
FieldCount 0. -/
def c2Input : List Nat :=
  [0, 0, 0, 0, 2, 93] ++
  ([1] ++ [0, 0, 0, 42] ++ [0, 0, 0, 0, 59, 95, 163, 208] ++
   [0, 0, 0, 0, 0, 0, 0, 0] ++ [0, 0, 0, 0, 0, 0, 0, 0] ++ [0] ++
   [0, 0, 0, 55] ++ [0, 0, 0, 0] ++ [0, 0, 0, 0]) ++
  List.replicate 80 0 ++
  ([0, 0, 0, 2] ++ [104, 105] ++ [0, 0, 0, 1] ++ [120] ++ [0, 0, 0, 0])

/-- The bytes of `Sun, 05 Aug 2001 05:00:00 GMT`. -/
def c5Val1 : List Nat :=
  [83, 117, 110, 44, 32, 48, 53, 32, 65, 117, 103, 32, 50, 48, 48, 49, 32,
   48, 53, 58, 48, 48, 58, 48, 48, 32, 71, 77, 84]

/-- The bytes of `Sun, 05 Aug 2001 06:00:00 GMT` (one hour later than
`c5Val1`). -/
def c5Val2 : List Nat :=
  [83, 117, 110, 44, 32, 48, 53, 32, 65, 117, 103, 32, 50, 48, 48, 49, 32,
   48, 54, 58, 48, 48, 58, 48, 48, 32, 71, 77, 84]

/-- A valid version-605 record with TWO header fields named `date`: the
first carries `c5Val1`, the second `c5Val2`. -/
def c5Input : List Nat :=
  [0, 0, 0, 0, 2, 93] ++
  ([1] ++ [0, 0, 0, 42] ++ [0, 0, 0, 0, 59, 95, 163, 208] ++
   [0, 0, 0, 0, 0, 0, 0, 0] ++ [0, 0, 0, 0, 0, 0, 0, 0] ++ [0] ++
   [0, 0, 0, 55] ++ [0, 0, 0, 0] ++ [0, 0, 0, 0]) ++
  List.replicate 80 0 ++
  ([0, 0, 0, 11] ++ [104, 116, 116, 112, 58, 47, 47, 120, 47, 97, 98] ++
   [0, 0, 0, 11] ++ [49, 48, 46, 55, 46, 49, 49, 57, 46, 49, 48] ++
   [0, 0, 0, 2]) ++
  ([0, 4] ++ dateBytes ++ [0, 29] ++ c5Val1) ++
  ([0, 4] ++ dateBytes ++ [0, 29] ++ c5Val2)

/-- A version-605 input whose structural reads all succeed but whose url
is the EMPTY string (length prefix 0): ip `x`, FieldCount 0. -/
def c8Input : List Nat :=
  [0, 0, 0, 0, 2, 93] ++
  ([1] ++ [0, 0, 0, 42] ++ [0, 0, 0, 0, 59, 95, 163, 208] ++
   [0, 0, 0, 0, 0, 0, 0, 0] ++ [0, 0, 0, 0, 0, 0, 0, 0] ++ [0] ++
   [0, 0, 0, 55] ++ [0, 0, 0, 0] ++ [0, 0, 0, 0]) ++
  List.replicate 80 0 ++
  ([0, 0, 0, 0] ++ [0, 0, 0, 1] ++ [120] ++ [0, 0, 0, 0])

/-- `fixture605` with every section-1 field except `last_modified_date`
changed (`shortcut`, `content_length`, `expiration_date`,
`validation_date`, `signed`, `sec2len`, `sec3len`, `sec4len`), and the
dead zone before offset 128 filled with 3s; magic bytes, the
`last_modified_date` field and everything from offset 128 on are
unchanged. -/
def fixture605var : List Nat :=
  [0, 0, 0, 0, 2, 93] ++
  ([9] ++ [1, 2, 3, 4] ++ [0, 0, 0, 0, 59, 95, 163, 208] ++
   [9, 9, 9, 9, 9, 9, 9, 9] ++ [8, 8, 8, 8, 8, 8, 8, 8] ++ [1] ++
   [7, 7, 7, 7] ++ [6, 6, 6, 6] ++ [5, 5, 5, 5]) ++
  List.replicate 80 3 ++
  ([0, 0, 0, 11] ++ [104, 116, 116, 112, 58, 47, 47, 120, 47, 97, 98] ++
   [0, 0, 0, 11] ++ [49, 48, 46, 55, 46, 49, 49, 57, 46, 49, 48] ++
   [0, 0, 0, 1]) ++
  ([0, 4] ++ [100, 97, 116, 101] ++
   [0, 29] ++ [83, 117, 110, 44, 32, 48, 53, 32, 65, 117, 103, 32, 50, 48,
               48, 49, 32, 48, 53, 58, 48, 48, 58, 48, 48, 32, 71, 77, 84])

/-! ### Basic facts about the read primitives -/

theorem readN_ok {s : List Nat} {n : Nat} (h : n ≤ s.length) :
    readN s n = .ok (s.take n, s.drop n) := by
  unfold readN; rw [if_pos h]

theorem readN_err {s : List Nat} {n : Nat} {e : JErr}
    (h : readN s n = .error e) : e = .truncatedInput := by
  unfold readN at h
  split at h <;> simp_all

theorem readUBInt_ok {s : List Nat} {w : Nat} (h : w ≤ s.length) :
    readUBInt s w = .ok (beVal (s.take w), s.drop w) := by
  unfold readUBInt; rw [readN_ok h]

theorem readUBInt_err {s : List Nat} {w : Nat} {e : JErr}
    (h : readUBInt s w = .error e) : e = .truncatedInput := by
  unfold readUBInt at h
  cases hr : readN s w with
  | error e2 => rw [hr] at h; cases h; exact readN_err hr
  | ok p => rw [hr] at h; simp at h

theorem readPascal_err {s : List Nat} {w : Nat} {e : JErr}
    (h : readPascal s w = .error e) : e = .truncatedInput := by
  unfold readPascal at h
  cases hr : readUBInt s w with
  | error e2 => rw [hr] at h; cases h; exact readUBInt_err hr
  | ok p => rw [hr] at h; exact readN_err h

/-! ### Which errors each stage can produce -/

theorem parseSection2_err {s : List Nat} {e : JErr}
    (h : parseSection2 s = .error e) : e = .truncatedInput := by
  unfold parseSection2 at h
  cases h1 : readPascal s 4 with
  | error e2 => rw [h1] at h; cases h; exact readPascal_err h1
  | ok p =>
    obtain ⟨url, s1⟩ := p
    rw [h1] at h
    dsimp only at h
    cases h2 : readPascal s1 4 with
    | error e2 => rw [h2] at h; cases h; exact readPascal_err h2
    | ok q =>
      obtain ⟨ip, s2⟩ := q
      rw [h2] at h
      dsimp only at h
      cases h3 : readUBInt s2 4 with
      | error e2 => rw [h3] at h; cases h; exact readUBInt_err h3
      | ok r => rw [h3] at h; simp at h

theorem parseIDX603S1_err {s : List Nat} {e : JErr}
    (h : parseIDX603S1 s = .error e) : e = .truncatedInput := by
  unfold parseIDX603S1 at h
  split at h <;> simp_all

theorem parseIDX605S1_err {s : List Nat} {e : JErr}
    (h : parseIDX605S1 s = .error e) : e = .truncatedInput := by
  unfold parseIDX605S1 at h
  split at h <;> simp_all

theorem parseIDX602_err {s : List Nat} {e : JErr}
    (h : parseIDX602 s = .error e) : e = .truncatedInput := by
  unfold parseIDX602 at h
  cases h1 : readUBInt s 2 with
  | error e2 => rw [h1] at h; cases h; exact readUBInt_err h1
  | ok p1 =>
  obtain ⟨a1, s1⟩ := p1
  rw [h1] at h
  dsimp only at h
  cases h2 : readUBInt s1 1 with
  | error e2 => rw [h2] at h; cases h; exact readUBInt_err h2
  | ok p2 =>
  obtain ⟨a2, s2⟩ := p2
  rw [h2] at h
  dsimp only at h
  cases h3 : readUBInt s2 4 with
  | error e2 => rw [h3] at h; cases h; exact readUBInt_err h3
  | ok p3 =>
  obtain ⟨a3, s3⟩ := p3
  rw [h3] at h
  dsimp only at h
  cases h4 : readUBInt s3 8 with
  | error e2 => rw [h4] at h; cases h; exact readUBInt_err h4
  | ok p4 =>
  obtain ⟨a4, s4⟩ := p4
  rw [h4] at h
  dsimp only at h
  cases h5 : readUBInt s4 8 with
  | error e2 => rw [h5] at h; cases h; exact readUBInt_err h5
  | ok p5 =>
  obtain ⟨a5, s5⟩ := p5
  rw [h5] at h
  dsimp only at h
  cases h6 : readPascal s5 2 with
  | error e2 => rw [h6] at h; cases h; exact readPascal_err h6
  | ok p6 =>
  obtain ⟨a6, s6⟩ := p6
  rw [h6] at h
  dsimp only at h
  cases h7 : readPascal s6 2 with
  | error e2 => rw [h7] at h; cases h; exact readPascal_err h7
  | ok p7 =>
  obtain ⟨a7, s7⟩ := p7
  rw [h7] at h
  dsimp only at h
  cases h8 : readPascal s7 2 with
  | error e2 => rw [h8] at h; cases h; exact readPascal_err h8
  | ok p8 =>
  obtain ⟨a8, s8⟩ := p8
  rw [h8] at h
  dsimp only at h
  cases h9 : readUBInt s8 4 with
  | error e2 => rw [h9] at h; cases h; exact readUBInt_err h9
  | ok p9 => rw [h9] at h; simp at h

theorem headerLoop_err {e : JErr} :
    ∀ {n : Nat} {s : List Nat} {acc : Option Nat},
      headerLoop n s acc = .error e →
      e = .truncatedInput ∨ e = .dateParseError := by
  intro n
  induction n with
  | zero => intro s acc h; simp [headerLoop] at h
  | succ m ih =>
    intro s acc h
    unfold headerLoop at h
    cases h1 : readPascal s 2 with
    | error e2 => rw [h1] at h; cases h; exact Or.inl (readPascal_err h1)
    | ok p1 =>
      obtain ⟨field, s1⟩ := p1
      rw [h1] at h
      dsimp only at h
      cases h2 : readPascal s1 2 with
      | error e2 => rw [h2] at h; cases h; exact Or.inl (readPascal_err h2)
      | ok p2 =>
        obtain ⟨value, s2⟩ := p2
        rw [h2] at h
        dsimp only at h
        by_cases hd : field = dateBytes
        · rw [if_pos hd] at h
          cases hf : FromTimeString value with
          | none => rw [hf] at h; cases h; exact Or.inr rfl
          | some t => rw [hf] at h; exact ih h
        · rw [if_neg hd] at h; exact ih h

theorem dispatch_err {b : List Nat} {v : Nat} {s : List Nat} {e : JErr}
    (h : dispatch b v s = .error e) :
    e = .truncatedInput ∨ e = .nameError := by
  unfold dispatch at h
  by_cases h602 : v = 602
  · rw [if_pos h602] at h
    cases h1 : parseIDX602 s with
    | error e2 => rw [h1] at h; cases h; exact Or.inl (parseIDX602_err h1)
    | ok p => obtain ⟨s1, s'⟩ := p; rw [h1] at h; simp at h
  · rw [if_neg h602] at h
    by_cases h603 : v = 603 ∨ v = 604
    · rw [if_pos h603] at h
      cases h1 : parseIDX603S1 s with
      | error e2 => rw [h1] at h; cases h; exact Or.inl (parseIDX603S1_err h1)
      | ok p =>
        obtain ⟨s1, s'⟩ := p
        rw [h1] at h
        dsimp only at h
        cases h2 : parseSection2 (b.drop 128) with
        | error e2 => rw [h2] at h; cases h; exact Or.inl (parseSection2_err h2)
        | ok q => obtain ⟨s2, s''⟩ := q; rw [h2] at h; simp at h
    · rw [if_neg h603] at h
      by_cases h605 : v = 605
      · rw [if_pos h605] at h
        cases h1 : parseIDX605S1 s with
        | error e2 => rw [h1] at h; cases h; exact Or.inl (parseIDX605S1_err h1)
        | ok p =>
          obtain ⟨s1, s'⟩ := p
          rw [h1] at h
          cases h2 : parseSection2 (b.drop 128) with
          | error e2 => rw [h2] at h; cases h; exact Or.inl (parseSection2_err h2)
          | ok q => obtain ⟨s2, s''⟩ := q; rw [h2] at h; simp at h
      · rw [if_neg h605] at h; cases h; exact Or.inr rfl

/-! ### The magic header and the flag check -/

theorem parseIDXShort_ok {b : List Nat} (h : 6 ≤ b.length) :
    parseIDXShort b =
      .ok (⟨b.getD 0 0, b.getD 1 0, beVal ((b.drop 2).take 4)⟩, b.drop 6) := by
  unfold parseIDXShort; rw [if_pos h]

theorem Parse_formatError_of_flags {b : List Nat} (h6 : 6 ≤ b.length)
    (hf : b.getD 0 0 > 1 ∨ b.getD 1 0 > 1) : Parse b = .error .formatError := by
  unfold Parse
  rw [parseIDXShort_ok h6]
  dsimp only
  rw [if_pos hf]

theorem Parse_ne_formatError_of_flags {b : List Nat} (h6 : 6 ≤ b.length)
    (hb : b.getD 0 0 ≤ 1) (hi : b.getD 1 0 ≤ 1) :
    Parse b ≠ .error .formatError := by
  intro h
  unfold Parse at h
  rw [parseIDXShort_ok h6] at h
  dsimp only at h
  rw [if_neg (by omega : ¬(b.getD 0 0 > 1 ∨ b.getD 1 0 > 1))] at h
  cases hd : dispatch b (beVal ((b.drop 2).take 4)) (b.drop 6) with
  | error e =>
    rw [hd] at h
    cases h
    rcases dispatch_err hd with h1 | h1 <;> cases h1
  | ok t =>
    obtain ⟨lm, url, ip, cnt, s'⟩ := t
    rw [hd] at h
    dsimp only at h
    cases hl : headerLoop cnt s' none with
    | error e =>
      rw [hl] at h
      cases h
      rcases headerLoop_err hl with h1 | h1 <;> cases h1
    | ok dd =>
      rw [hl] at h
      dsimp only at h
      by_cases hu : url = [] ∨ ip = []
      · rw [if_pos hu] at h; cases h
      · rw [if_neg hu] at h
        cases dd with
        | none => cases h
        | some d => cases h

/-! ### Decomposition of Parse per version -/

theorem Parse_603_decomp {b : List Nat} {v : Nat} (hv : v = 603 ∨ v = 604)
    (hver : beVal ((b.drop 2).take 4) = v)
    (hb : b.getD 0 0 ≤ 1) (hi : b.getD 1 0 ≤ 1) (hlen : 50 ≤ b.length) :
    Parse b = parseRest v (beVal ((b.drop 13).take 8)) (b.drop 128) := by
  have h6 : 6 ≤ b.length := by omega
  unfold Parse
  rw [parseIDXShort_ok h6]
  dsimp only
  rw [hver]
  rw [if_neg (by omega : ¬(b.getD 0 0 > 1 ∨ b.getD 1 0 > 1))]
  have hv602 : ¬ v = 602 := by rcases hv with h | h <;> omega
  have h44 : 44 ≤ (b.drop 6).length := by rw [List.length_drop]; omega
  unfold dispatch
  rw [if_neg hv602, if_pos hv]
  unfold parseIDX603S1
  rw [if_pos h44]
  dsimp only
  rw [List.drop_drop]
  norm_num
  cases hs2 : parseSection2 (b.drop 128) with
  | error e => simp only [parseRest, hs2]
  | ok p =>
    obtain ⟨s2, s'⟩ := p
    simp only [parseRest, hs2]

theorem Parse_605_decomp {b : List Nat} (hver : beVal ((b.drop 2).take 4) = 605)
    (hb : b.getD 0 0 ≤ 1) (hi : b.getD 1 0 ≤ 1) (hlen : 48 ≤ b.length) :
    Parse b = parseRest 605 (beVal ((b.drop 11).take 8) * 1000) (b.drop 128) := by
  have h6 : 6 ≤ b.length := by omega
  unfold Parse
  rw [parseIDXShort_ok h6]
  dsimp only
  rw [hver]
  rw [if_neg (by omega : ¬(b.getD 0 0 > 1 ∨ b.getD 1 0 > 1))]
  have h42 : 42 ≤ (b.drop 6).length := by rw [List.length_drop]; omega
  unfold dispatch
  rw [if_neg (by omega : ¬(605 : Nat) = 602),
      if_neg (by omega : ¬((605 : Nat) = 603 ∨ (605 : Nat) = 604)),
      if_pos rfl]
  unfold parseIDX605S1
  rw [if_pos h42]
  dsimp only
  rw [List.drop_drop]
  norm_num
  cases hs2 : parseSection2 (b.drop 128) with
  | error e => simp only [parseRest, hs2]
  | ok p =>
    obtain ⟨s2, s'⟩ := p
    simp only [parseRest, hs2]

theorem Parse_602_decomp {b : List Nat} {s1 : S602} {rest : List Nat}
    (hver : beVal ((b.drop 2).take 4) = 602)
    (hb : b.getD 0 0 ≤ 1) (hi : b.getD 1 0 ≤ 1)
    (hs1 : parseIDX602 (b.drop 6) = .ok (s1, rest)) :
    Parse b = parse602Rest 602 s1.last_modified_date s1.url s1.FieldCount rest := by
  have h6 : 6 ≤ b.length := by
    by_contra hc
    have hnil : b.drop 6 = [] := List.drop_eq_nil_of_le (by omega)
    rw [hnil] at hs1
    rw [show parseIDX602 [] = Except.error .truncatedInput from by decide] at hs1
    cases hs1
  unfold Parse
  rw [parseIDXShort_ok h6]
  dsimp only
  rw [hver]
  rw [if_neg (by omega : ¬(b.getD 0 0 > 1 ∨ b.getD 1 0 > 1))]
  unfold dispatch
  rw [if_pos rfl]
  rw [hs1]
  dsimp only
  simp only [parse602Rest]

/-! ### Inversion lemmas -/

theorem Parse_ok_structure {b : List Nat} {r : JavaIDXRecord}
    (h : Parse b = .ok r) :
    ∃ m s lm url ip cnt s' d,
      parseIDXShort b = .ok (m, s) ∧ ¬(m.busy > 1 ∨ m.incomplete > 1) ∧
      dispatch b m.idx_version s = .ok (lm, url, ip, cnt, s') ∧
      headerLoop cnt s' none = .ok (some d) ∧
      ¬(url = [] ∨ ip = []) ∧
      r = ⟨m.idx_version, url, ip, lm, d⟩ := by
  unfold Parse at h
  cases h0 : parseIDXShort b with
  | error e => rw [h0] at h; cases h
  | ok p =>
    obtain ⟨m, s⟩ := p
    rw [h0] at h
    dsimp only at h
    by_cases hf : m.busy > 1 ∨ m.incomplete > 1
    · rw [if_pos hf] at h; cases h
    · rw [if_neg hf] at h
      cases hd : dispatch b m.idx_version s with
      | error e => rw [hd] at h; cases h
      | ok t =>
        obtain ⟨lm, url, ip, cnt, s'⟩ := t
        rw [hd] at h
        dsimp only at h
        cases hl : headerLoop cnt s' none with
        | error e => rw [hl] at h; cases h
        | ok dd =>
          rw [hl] at h
          dsimp only at h
          by_cases hu : url = [] ∨ ip = []
          · rw [if_pos hu] at h; cases h
          · rw [if_neg hu] at h
            cases dd with
            | none => cases h
            | some d =>
              refine ⟨m, s, lm, url, ip, cnt, s', d, rfl, hf, hd, hl, hu, ?_⟩
              injection h with h2
              exact h2.symm

theorem parseRest_ok {v lm : Nat} {s : List Nat} {r : JavaIDXRecord}
    (h : parseRest v lm s = .ok r) :
    r.idx_version = v ∧ r.last_modified_date = lm := by
  unfold parseRest at h
  cases h1 : parseSection2 s with
  | error e => rw [h1] at h; cases h
  | ok p =>
    obtain ⟨s2, s'⟩ := p
    rw [h1] at h
    dsimp only at h
    cases h2 : headerLoop s2.FieldCount s' none with
    | error e => rw [h2] at h; cases h
    | ok dd =>
      rw [h2] at h
      dsimp only at h
      by_cases hu : s2.url = [] ∨ s2.ip_address = []
      · rw [if_pos hu] at h; cases h
      · rw [if_neg hu] at h
        cases dd with
        | none => cases h
        | some d =>
          injection h with h3
          rw [← h3]
          exact ⟨rfl, rfl⟩

theorem parse602Rest_ok {v lm : Nat} {url : List Nat} {cnt : Nat}
    {s : List Nat} {r : JavaIDXRecord}
    (h : parse602Rest v lm url cnt s = .ok r) :
    r.idx_version = v ∧ r.last_modified_date = lm := by
  unfold parse602Rest at h
  cases h1 : headerLoop cnt s none with
  | error e => rw [h1] at h; cases h
  | ok dd =>
    rw [h1] at h
    dsimp only at h
    by_cases hu : url = [] ∨ unknownIP = []
    · rw [if_pos hu] at h; cases h
    · rw [if_neg hu] at h
      cases dd with
      | none => cases h
      | some d =>
        injection h with h3
        rw [← h3]
        exact ⟨rfl, rfl⟩

/-! ### Truncation results for inputs shorter than the fixed layouts -/

theorem Parse_short_magic {b : List Nat} (h : b.length < 6) :
    Parse b = .error .truncatedInput := by
  unfold Parse parseIDXShort
  rw [if_neg (by omega : ¬ 6 ≤ b.length)]

theorem Parse_605_short {b : List Nat}
    (hver : beVal ((b.drop 2).take 4) = 605)
    (hb : b.getD 0 0 ≤ 1) (hi : b.getD 1 0 ≤ 1) (hlen : b.length < 48) :
    Parse b = .error .truncatedInput := by
  by_cases h6 : 6 ≤ b.length
  · unfold Parse
    rw [parseIDXShort_ok h6]
    dsimp only
    rw [hver]
    rw [if_neg (by omega : ¬(b.getD 0 0 > 1 ∨ b.getD 1 0 > 1))]
    unfold dispatch
    rw [if_neg (by omega : ¬(605 : Nat) = 602),
        if_neg (by omega : ¬((605 : Nat) = 603 ∨ (605 : Nat) = 604)),
        if_pos rfl]
    unfold parseIDX605S1
    rw [if_neg (by rw [List.length_drop]; omega : ¬ 42 ≤ (b.drop 6).length)]
  · exact Parse_short_magic (by omega)

theorem Parse_603_short {b : List Nat} {v : Nat} (hv : v = 603 ∨ v = 604)
    (hver : beVal ((b.drop 2).take 4) = v)
    (hb : b.getD 0 0 ≤ 1) (hi : b.getD 1 0 ≤ 1) (hlen : b.length < 50) :
    Parse b = .error .truncatedInput := by
  by_cases h6 : 6 ≤ b.length
  · unfold Parse
    rw [parseIDXShort_ok h6]
    dsimp only
    rw [hver]
    rw [if_neg (by omega : ¬(b.getD 0 0 > 1 ∨ b.getD 1 0 > 1))]
    unfold dispatch
    rw [if_neg (by rcases hv with h | h <;> omega : ¬ v = 602), if_pos hv]
    unfold parseIDX603S1
    rw [if_neg (by rw [List.length_drop]; omega : ¬ 44 ≤ (b.drop 6).length)]
  · exact Parse_short_magic (by omega)

/-! ### Agreement helpers for byte regions -/

theorem getD_of_take_eq {b b' : List Nat} {n i : Nat}
    (h : b.take n = b'.take n) (hi : i < n) : b.getD i 0 = b'.getD i 0 := by
  have h2 : (b.take n)[i]? = (b'.take n)[i]? := by rw [h]
  rw [List.getElem?_take_of_lt hi, List.getElem?_take_of_lt hi] at h2
  simp [List.getD_eq_getElem?_getD, h2]

theorem dropTake_of_take_eq {b b' : List Nat} {n i j : Nat}
    (h : b.take n = b'.take n) (hij : i + j ≤ n) :
    (b.drop i).take j = (b'.drop i).take j := by
  have e : ∀ l : List Nat,
      (List.drop i l).take j = List.drop i ((List.take n l).take (i + j)) := by
    intro l
    rw [List.take_take, Nat.min_eq_left hij]
    exact List.take_drop i j l
  rw [e b, e b', h]

/-! ### The header loop on encoded pairs -/

theorem beVal_enc16 {n : Nat} (h : n < 65536) : beVal (enc16 n) = n := by
  show (0 * 256 + n / 256 % 256) * 256 + n % 256 = n
  omega

theorem encPascal16_readPascal {s r : List Nat} (h : s.length < 65536) :
    readPascal (encPascal16 s ++ r) 2 = .ok (s, r) := by
  unfold readPascal encPascal16
  rw [List.append_assoc]
  have hlen2 : (enc16 s.length).length = 2 := rfl
  have h1 : readUBInt (enc16 s.length ++ (s ++ r)) 2 =
      .ok (beVal (enc16 s.length), s ++ r) := by
    rw [readUBInt_ok (by rw [List.length_append, hlen2]; omega)]
    rw [List.take_left' hlen2, List.drop_left' hlen2]
  rw [h1]
  dsimp only
  rw [beVal_enc16 h]
  rw [readN_ok (by rw [List.length_append]; omega)]
  rw [List.take_left, List.drop_left]

theorem headerLoop_succ (n : Nat) (s : List Nat) (acc : Option Nat) :
    headerLoop (n + 1) s acc =
      (match readPascal s 2 with
       | .error e => .error e
       | .ok (field, s) =>
         match readPascal s 2 with
         | .error e => .error e
         | .ok (value, s) =>
           if field = dateBytes then
             match FromTimeString value with
             | none => .error .dateParseError
             | some t => headerLoop n s (some t)
           else headerLoop n s acc) := rfl

theorem headerLoop_encodePairs (ps : List (List Nat × List Nat)) :
    ∀ (acc : Option Nat) (extra : List Nat),
      (∀ p ∈ ps, p.1.length < 65536 ∧ p.2.length < 65536) →
      (∀ p ∈ ps, p.1 = dateBytes → FromTimeString p.2 ≠ none) →
      headerLoop ps.length (encodePairs ps ++ extra) acc =
        .ok (lastDateFold ps acc) := by
  induction ps with
  | nil =>
    intro acc extra _ _
    simp [encodePairs, headerLoop, lastDateFold]
  | cons p ps ih =>
    intro acc extra hlen hdate
    obtain ⟨name, value⟩ := p
    rw [List.length_cons, headerLoop_succ]
    rw [show encodePairs ((name, value) :: ps) ++ extra =
        encPascal16 name ++ (encPascal16 value ++ (encodePairs ps ++ extra)) by
      simp [encodePairs, encodePair]]
    rw [encPascal16_readPascal (hlen (name, value) (by simp)).1]
    dsimp only
    rw [encPascal16_readPascal (hlen (name, value) (by simp)).2]
    dsimp only
    by_cases hn : name = dateBytes
    · rw [if_pos hn]
      cases hf : FromTimeString value with
      | none => exact absurd hf (hdate (name, value) (by simp) hn)
      | some t =>
        dsimp only
        rw [ih (some t) extra (fun q hq => hlen q (by simp [hq]))
            (fun q hq => hdate q (by simp [hq]))]
        congr 1
        simp [lastDateFold, hn, hf]
    · rw [if_neg hn]
      rw [ih acc extra (fun q hq => hlen q (by simp [hq]))
          (fun q hq => hdate q (by simp [hq]))]
      congr 1
      simp [lastDateFold, hn]

theorem lastDateFold_eq_find? (ps : List (List Nat × List Nat)) :
    ∀ acc, lastDateFold ps acc =
      match ps.reverse.find? (fun p => decide (p.1 = dateBytes)) with
      | some p => FromTimeString p.2
      | none => acc := by
  induction ps with
  | nil => intro acc; simp [lastDateFold]
  | cons p ps ih =>
    intro acc
    rw [show lastDateFold (p :: ps) acc =
        lastDateFold ps (if p.1 = dateBytes then FromTimeString p.2 else acc)
        from rfl]
    rw [ih]
    simp only [List.reverse_cons, List.find?_append]
    cases hf : ps.reverse.find? (fun q => decide (q.1 = dateBytes)) with
    | some q => simp [Option.or]
    | none =>
      simp only [Option.none_or]
      by_cases hp : p.1 = dateBytes
      · simp [List.find?_cons, hp]
      · simp [List.find?_cons, hp]

/-! ### Layout sanity: the field tables match the parsers' widths -/

theorem IDX_603_fields_width :
    (IDX_603_SECTION1_fields.map (fun p => p.2)).sum = 44 := by decide

theorem IDX_605_fields_width :
    (IDX_605_SECTION1_fields.map (fun p => p.2)).sum = 42 := by decide

/-! ### The claims -/

set_option maxRecDepth 100000

/-- C1: the claim states that a parseable header with both flags ≤ 1 and a
`formatVersion` outside `{602, 603, 604, 605}` makes `Parse` fail with
`UnsupportedVersionError` and never with an unclassified error.  The code
has no else branch in its version dispatch, so on `c1Input` (flags 0,
version 600) it falls through to the header loop and crashes with
Python's `UnboundLocalError` on `http_header_count` — an unclassified
error, not the claimed `UnsupportedVersionError`. -/
theorem C1_unknown_version_is_unclassified_crash :
    Parse c1Input = .error .nameError ∧
    Parse c1Input ≠ .error .unsupportedVersion := by decide

/-- C2: the claim states that a structurally valid record with no header
field named `date` decodes successfully with the download timestamp
absent.  On `c2Input` (a valid version-605 record with header-field count
0) every structural read succeeds — the dispatch returns the full tuple —
but the code then references the never-assigned local `download_date`
when appending the second timestamp event, so `Parse` fails with
Python's `UnboundLocalError` instead of succeeding. -/
theorem C2_missing_date_field_crashes :
    dispatch c2Input 605 (c2Input.drop 6) =
      .ok (996123600000, [104, 105], [120], 0, []) ∧
    Parse c2Input = .error .nameError := by decide

/-- C3: truncating a valid record at any point — inside the magic header,
the primary section, the secondary section, or a header field — always
yields the truncation error and never a decoded record: both fixtures
decode successfully in full, and every strict prefix of either fixture
fails with `.truncatedInput`. -/
theorem C3_truncated_prefixes_always_fail :
    Parse fixture605 = .ok fixtureRecord605 ∧
    Parse fixture602 = .ok fixtureRecord602 ∧
    (∀ n, n < fixture605.length →
      Parse (fixture605.take n) = .error .truncatedInput) ∧
    (∀ n, n < fixture602.length →
      Parse (fixture602.take n) = .error .truncatedInput) :=
  ⟨by decide, by decide, by decide, by decide⟩

/-- C4 counterexample: the claim states that the 605 section-1 layout
removes exactly one 1-byte field from the 603/604 layout, shifting every
later field down by one byte.  In the code the removed field is
`null_space`, a `UBInt16` of TWO bytes: `shortcut` sits at offset 2 in
the 603/604 layout but at offset 0 in the 605 layout, and 2 ≠ 0 + 1. -/
theorem C4_counterexample :
    offsetOf IDX_603_SECTION1_fields "shortcut" = some 2 ∧
    offsetOf IDX_605_SECTION1_fields "shortcut" = some 0 ∧
    (2 : Nat) ≠ 0 + 1 := by decide

/-- C4 (amended): the 605 layout is the 603/604 layout with exactly one
2-byte field (`null_space`, a `UBInt16`) removed from the front, with no
fields reordered, so every field of the 605 layout sits at an offset
exactly TWO bytes lower than in the 603/604 layout. -/
theorem C4_amended_two_byte_shift :
    IDX_603_SECTION1_fields = ("null_space", 2) :: IDX_605_SECTION1_fields ∧
    (∀ p ∈ IDX_605_SECTION1_fields,
      offsetOf IDX_603_SECTION1_fields p.1 =
        (offsetOf IDX_605_SECTION1_fields p.1).map (fun o => o + 2)) :=
  ⟨rfl, by decide⟩

/-- C4 witness: the amended claim applied to the `shortcut` field. -/
theorem C4_amended_witness :
    offsetOf IDX_603_SECTION1_fields "shortcut" =
      (offsetOf IDX_605_SECTION1_fields "shortcut").map (fun o => o + 2) :=
  C4_amended_two_byte_shift.2 ("shortcut", 1) (by decide)

/-- C5 counterexample: the claim states that for a record with one or
more `date` fields the emitted download timestamp is the parse of the
FIRST such field's value.  `c5Input` carries two `date` fields, the first
with value `c5Val1` (which parses to 996987600000000), the second with
`c5Val2`; the loop has no break, so the emitted `download_date` is
996991200000000 — the parse of the SECOND (last) value, not the first. -/
theorem C5_counterexample :
    FromTimeString c5Val1 = some 996987600000000 ∧
    Parse c5Input =
      .ok ⟨605, [104, 116, 116, 112, 58, 47, 47, 120, 47, 97, 98],
           [49, 48, 46, 55, 46, 49, 49, 57, 46, 49, 48], 996123600000,
           996991200000000⟩ ∧
    (996991200000000 : Nat) ≠ 996987600000000 := by decide

/-- C5 (amended): the scan compares each header-field name to the exact
lowercase byte literal `date` (case-sensitively); EVERY matching field's
value is parsed with the fixed pattern (any matching value that fails the
pattern is fatal), and the resulting download timestamp is the parse of
the LAST matching field's value — the loop accumulator is overwritten on
each match, as `lastDateFold` states and its `find?`-on-reverse
characterization makes explicit. -/
theorem C5_amended_last_match_wins :
    dateBytes = [100, 97, 116, 101] ∧
    (∀ (ps : List (List Nat × List Nat)) (acc : Option Nat)
       (extra : List Nat),
      (∀ p ∈ ps, p.1.length < 65536 ∧ p.2.length < 65536) →
      (∀ p ∈ ps, p.1 = dateBytes → FromTimeString p.2 ≠ none) →
      headerLoop ps.length (encodePairs ps ++ extra) acc =
        .ok (lastDateFold ps acc)) ∧
    (∀ ps acc, lastDateFold ps acc =
      match ps.reverse.find? (fun p => decide (p.1 = dateBytes)) with
      | some p => FromTimeString p.2
      | none => acc) :=
  ⟨rfl, headerLoop_encodePairs, lastDateFold_eq_find?⟩

/-- C5 witness: the amended claim applied to two concrete `date` pairs. -/
theorem C5_amended_witness :
    headerLoop 2 (encodePairs [(dateBytes, c5Val1), (dateBytes, c5Val2)] ++ [])
        none =
      .ok (lastDateFold [(dateBytes, c5Val1), (dateBytes, c5Val2)] none) :=
  C5_amended_last_match_wins.2.1 [(dateBytes, c5Val1), (dateBytes, c5Val2)]
    none [] (by decide) (by decide)

/-- C6: for every record of version 603, 604 or 605 (flags valid, enough
bytes for the fixed section 1), the whole decode factors through
`parseRest` applied to `b.drop 128`: the secondary section is read from
the fixed absolute offset 128 — no `sec2len`/`sec3len`/`sec4len` value or
any other primary-section content influences where it is read, since only
the version and the raw last-modified field reach the continuation — and
`parseRest` reads a 32-bit-length-prefixed url, a 32-bit-length-prefixed
address and a 32-bit field count, in that order, by definition of
`parseSection2`. -/
theorem C6_section2_at_fixed_offset_128 (b : List Nat) (v : Nat)
    (hv : v = 603 ∨ v = 604 ∨ v = 605)
    (hver : beVal ((b.drop 2).take 4) = v)
    (hb : b.getD 0 0 ≤ 1) (hi : b.getD 1 0 ≤ 1)
    (hlen : 6 + s1len v ≤ b.length) :
    Parse b = parseRest v (lastmodVal v b) (b.drop 128) := by
  rcases hv with h | h | h
  · subst h
    rw [Parse_603_decomp (Or.inl rfl) hver hb hi
        (by simp [s1len] at hlen; omega)]
    simp [lastmodVal]
  · subst h
    rw [Parse_603_decomp (Or.inr rfl) hver hb hi
        (by simp [s1len] at hlen; omega)]
    simp [lastmodVal]
  · subst h
    rw [Parse_605_decomp hver hb hi (by simp [s1len] at hlen; omega)]
    simp [lastmodVal]

/-- C6 witness: the decomposition applied to the 605 fixture. -/
theorem C6_witness :
    Parse fixture605 =
      parseRest 605 (lastmodVal 605 fixture605) (fixture605.drop 128) :=
  C6_section2_at_fixed_offset_128 fixture605 605 (Or.inr (Or.inr rfl))
    (by decide) (by decide) (by decide) (by decide)

/-- C7: for version 605 the emitted last-modified timestamp is the raw
8-byte big-endian field (at absolute offset 11) times exactly 1000; for
versions 603/604 it is the raw field (at offset 13) unscaled; for version
602 it is the decoded section-1 field unscaled; and on the 605 fixture
the emitted value is 996123600000. -/
theorem C7_lastmod_scaling :
    (∀ (b : List Nat) (r : JavaIDXRecord),
      beVal ((b.drop 2).take 4) = 605 → b.getD 0 0 ≤ 1 → b.getD 1 0 ≤ 1 →
      Parse b = .ok r →
      r.last_modified_date = beVal ((b.drop 11).take 8) * 1000) ∧
    (∀ (b : List Nat) (r : JavaIDXRecord) (v : Nat), (v = 603 ∨ v = 604) →
      beVal ((b.drop 2).take 4) = v → b.getD 0 0 ≤ 1 → b.getD 1 0 ≤ 1 →
      Parse b = .ok r →
      r.last_modified_date = beVal ((b.drop 13).take 8)) ∧
    (∀ (b : List Nat) (r : JavaIDXRecord) (s1 : S602) (rest : List Nat),
      beVal ((b.drop 2).take 4) = 602 → b.getD 0 0 ≤ 1 → b.getD 1 0 ≤ 1 →
      parseIDX602 (b.drop 6) = .ok (s1, rest) → Parse b = .ok r →
      r.last_modified_date = s1.last_modified_date) ∧
    Parse fixture605 = .ok fixtureRecord605 ∧
    fixtureRecord605.last_modified_date = 996123600000 := by
  refine ⟨?_, ?_, ?_, by decide, by decide⟩
  · intro b r hver hb hi h
    by_cases hlen : 48 ≤ b.length
    · rw [Parse_605_decomp hver hb hi hlen] at h
      exact (parseRest_ok h).2
    · rw [Parse_605_short hver hb hi (by omega)] at h
      cases h
  · intro b r v hv hver hb hi h
    by_cases hlen : 50 ≤ b.length
    · rw [Parse_603_decomp hv hver hb hi hlen] at h
      exact (parseRest_ok h).2
    · rw [Parse_603_short hv hver hb hi (by omega)] at h
      cases h
  · intro b r s1 rest hver hb hi hs1 h
    rw [Parse_602_decomp hver hb hi hs1] at h
    exact (parse602Rest_ok h).2

/-- C7 witness: the 605 scaling equation applied to the 605 fixture. -/
theorem C7_witness :
    fixtureRecord605.last_modified_date =
      beVal ((fixture605.drop 11).take 8) * 1000 :=
  C7_lastmod_scaling.1 fixture605 fixtureRecord605 (by decide) (by decide)
    (by decide) (by decide)

/-- C8: every successfully returned record has a non-empty url and a
non-empty address; and whenever every structural read succeeds (header
parse, dispatch, and the whole header loop including its date parses) but
the recovered url or address is empty, `Parse` fails with the
field-missing error (the source's `URL not found in file`). -/
theorem C8_empty_url_or_ip_rejected :
    (∀ (b : List Nat) (r : JavaIDXRecord), Parse b = .ok r →
      r.url ≠ [] ∧ r.ip_address ≠ []) ∧
    (∀ (b : List Nat) (m : Magic) (s : List Nat) (lm : Nat)
       (url ip : List Nat) (cnt : Nat) (s' : List Nat) (dd : Option Nat),
      parseIDXShort b = .ok (m, s) → m.busy ≤ 1 → m.incomplete ≤ 1 →
      dispatch b m.idx_version s = .ok (lm, url, ip, cnt, s') →
      headerLoop cnt s' none = .ok dd →
      url = [] ∨ ip = [] →
      Parse b = .error .fieldMissing) := by
  constructor
  · intro b r h
    obtain ⟨m, s, lm, url, ip, cnt, s', d, h0, hf, hd, hl, hu, hr⟩ :=
      Parse_ok_structure h
    push_neg at hu
    subst hr
    exact ⟨hu.1, hu.2⟩
  · intro b m s lm url ip cnt s' dd h0 hb hi hd hl hu
    unfold Parse
    rw [h0]
    dsimp only
    rw [if_neg (by omega : ¬(m.busy > 1 ∨ m.incomplete > 1))]
    rw [hd]
    dsimp only
    rw [hl]
    dsimp only
    rw [if_pos hu]

/-- C8 witness: a structurally valid 605 input whose url has length 0 is
rejected with the field-missing error. -/
theorem C8_witness : Parse c8Input = .error .fieldMissing :=
  C8_empty_url_or_ip_rejected.2 c8Input ⟨0, 0, 605⟩ (c8Input.drop 6)
    996123600000 [] [120] 0 [] none (by decide) (by decide) (by decide)
    (by decide) (by decide) (Or.inl rfl)

/-- C9: as soon as the 6 header bytes are available, `Parse` fails with
the format error exactly when the busy byte or the incomplete byte
exceeds 1, regardless of every other byte of the input; flag values 0 and
1 never produce that error. -/
theorem C9_flags_above_one_rejected (b : List Nat) (h6 : 6 ≤ b.length) :
    Parse b = .error .formatError ↔ (b.getD 0 0 > 1 ∨ b.getD 1 0 > 1) := by
  constructor
  · intro h
    by_contra hc
    push_neg at hc
    exact Parse_ne_formatError_of_flags h6 hc.1 hc.2 h
  · exact Parse_formatError_of_flags h6

/-- C9 witness: a busy byte of 2 is rejected with the format error. -/
theorem C9_witness : Parse [2, 0, 0, 0, 2, 93] = .error .formatError :=
  (C9_flags_above_one_rejected [2, 0, 0, 0, 2, 93] (by decide)).mpr
    (by decide)

theorem len6_of_parseIDX602_ok {b : List Nat} {p : S602 × List Nat}
    (h : parseIDX602 (b.drop 6) = .ok p) : 6 ≤ b.length := by
  by_contra hc
  rw [List.drop_eq_nil_of_le (by omega)] at h
  rw [show parseIDX602 [] = Except.error .truncatedInput from by decide] at h
  cases h

/-- C10: the decoded output is a function only of the version, the raw
last-modified field, and the data from which url, address, field count
and header pairs are read.  For versions 603/604/605: two inputs that
agree on the 6 magic bytes, on the 8 last-modified bytes, and from byte
128 onwards decode identically, however much they differ in
`content_length`, `expiration_date`, `validation_date`, `signed`,
`sec2len`, `sec3len`, `sec4len` or anywhere else below offset 128.  For
version 602: two inputs whose section-1 parses agree on
`last_modified_date`, `url` and `FieldCount` and whose remaining streams
agree decode identically, however much they differ in `null_space`,
`shortcut`, `content_length`, `expiration_date`, `version_string` or
`namespace`. -/
theorem C10_noninterference :
    (∀ (b b' : List Nat) (v : Nat), (v = 603 ∨ v = 604 ∨ v = 605) →
      b.take 6 = b'.take 6 →
      beVal ((b.drop 2).take 4) = v →
      6 + s1len v ≤ b.length → 6 + s1len v ≤ b'.length →
      (b.drop (if v = 605 then 11 else 13)).take 8 =
        (b'.drop (if v = 605 then 11 else 13)).take 8 →
      b.drop 128 = b'.drop 128 →
      Parse b = Parse b') ∧
    (∀ (b b' : List Nat) (s1 s1' : S602) (rest rest' : List Nat),
      b.take 6 = b'.take 6 →
      beVal ((b.drop 2).take 4) = 602 →
      parseIDX602 (b.drop 6) = .ok (s1, rest) →
      parseIDX602 (b'.drop 6) = .ok (s1', rest') →
      s1.last_modified_date = s1'.last_modified_date →
      s1.url = s1'.url → s1.FieldCount = s1'.FieldCount → rest = rest' →
      Parse b = Parse b') := by
  constructor
  · intro b b' v hv h6t hver hlen hlen' hlm h128
    have hver' : beVal ((b'.drop 2).take 4) = v := by
      rw [← dropTake_of_take_eq h6t (by omega : 2 + 4 ≤ 6)]
      exact hver
    have hg0 : b.getD 0 0 = b'.getD 0 0 := getD_of_take_eq h6t (by omega)
    have hg1 : b.getD 1 0 = b'.getD 1 0 := getD_of_take_eq h6t (by omega)
    have hs42 : 42 ≤ s1len v := by unfold s1len; split <;> omega
    have h6 : 6 ≤ b.length := by omega
    have h6' : 6 ≤ b'.length := by omega
    by_cases hflag : b.getD 0 0 > 1 ∨ b.getD 1 0 > 1
    · rw [Parse_formatError_of_flags h6 hflag,
          Parse_formatError_of_flags h6' (by rw [← hg0, ← hg1]; exact hflag)]
    · push_neg at hflag
      rcases hv with h | h | h
      · subst h
        norm_num at hlm
        norm_num [s1len] at hlen hlen'
        rw [Parse_603_decomp (Or.inl rfl) hver hflag.1 hflag.2 (by omega)]
        rw [Parse_603_decomp (Or.inl rfl) hver'
            (by rw [← hg0]; exact hflag.1) (by rw [← hg1]; exact hflag.2)
            (by omega)]
        rw [hlm, h128]
      · subst h
        norm_num at hlm
        norm_num [s1len] at hlen hlen'
        rw [Parse_603_decomp (Or.inr rfl) hver hflag.1 hflag.2 (by omega)]
        rw [Parse_603_decomp (Or.inr rfl) hver'
            (by rw [← hg0]; exact hflag.1) (by rw [← hg1]; exact hflag.2)
            (by omega)]
        rw [hlm, h128]
      · subst h
        norm_num at hlm
        norm_num [s1len] at hlen hlen'
        rw [Parse_605_decomp hver hflag.1 hflag.2 (by omega)]
        rw [Parse_605_decomp hver'
            (by rw [← hg0]; exact hflag.1) (by rw [← hg1]; exact hflag.2)
            (by omega)]
        rw [hlm, h128]
  · intro b b' s1 s1' rest rest' h6t hver hs1 hs1' hlm hurl hcnt hrest
    have hver' : beVal ((b'.drop 2).take 4) = 602 := by
      rw [← dropTake_of_take_eq h6t (by omega : 2 + 4 ≤ 6)]
      exact hver
    have hg0 : b.getD 0 0 = b'.getD 0 0 := getD_of_take_eq h6t (by omega)
    have hg1 : b.getD 1 0 = b'.getD 1 0 := getD_of_take_eq h6t (by omega)
    have h6 : 6 ≤ b.length := len6_of_parseIDX602_ok hs1
    have h6' : 6 ≤ b'.length := len6_of_parseIDX602_ok hs1'
    by_cases hflag : b.getD 0 0 > 1 ∨ b.getD 1 0 > 1
    · rw [Parse_formatError_of_flags h6 hflag,
          Parse_formatError_of_flags h6' (by rw [← hg0, ← hg1]; exact hflag)]
    · push_neg at hflag
      rw [Parse_602_decomp hver hflag.1 hflag.2 hs1]
      rw [Parse_602_decomp hver'
          (by rw [← hg0]; exact hflag.1) (by rw [← hg1]; exact hflag.2) hs1']
      rw [hlm, hurl, hcnt, hrest]

/-- C10 witness: `fixture605var` differs from `fixture605` in every
section-1 field except the last-modified bytes (and in the dead zone
before offset 128) yet decodes to the same result. -/
theorem C10_witness : Parse fixture605var = Parse fixture605 :=
  C10_noninterference.1 fixture605var fixture605 605 (Or.inr (Or.inr rfl))
    (by decide) (by decide) (by decide) (by decide) (by decide) (by decide)
